import Mathlib

/-!
Verification of the clap-cpp-validator core against its specification.

The C++ sources are shallowly embedded: each C++ function that a claim is
about becomes a Lean definition mirroring its control flow.  Behaviour of the
opaque plugin side (CLAP function tables loaded from a shared object), of the
OS thread identities, and of the C++ regex engine is modelled by explicit
oracle parameters, since those parts are external inputs to the validator.
-/

namespace ClapValidator

/-! ## Plugin instance state machine (src/plugin/instance.cpp) -/

/-- Plugin status in terms of activation and processing (instance.h). -/
inductive PluginStatus where
  | Inactive
  | ActiveAndSleeping
  | ActiveAndProcessing
deriving DecidableEq, Repr

/-- The mutable fields of `clap_validator::Plugin` that the lifecycle
methods read and write: the `initialized_` flag and the `status_` field. -/
structure PluginState where
  initialized : Bool
  status : PluginStatus
deriving DecidableEq, Repr

/-- The plugin-side function table reachable through `plugin_`.  A `none`
models a null function pointer; a `some` carries the value the call returns.
`stop_processing` has no observable result, so only pointer presence is
recorded. -/
structure ClapPluginFns where
  init : Option Bool
  activate : Option Bool
  start_processing : Option Bool
  stop_processing : Bool
  process : Option Int
deriving DecidableEq, Repr

/-- `CLAP_PROCESS_ERROR` from the CLAP headers. -/
def CLAP_PROCESS_ERROR : Int := 0

/-- `Plugin::init`: no-op returning true when already initialized; otherwise
calls the plugin-side `init` and stores its result in `initialized_`. -/
def Plugin.init (fns : ClapPluginFns) (s : PluginState) : Bool × PluginState :=
  if s.initialized then (true, s)
  else
    match fns.init with
    | none => (false, s)
    | some b => (b, { s with initialized := b })

/-- `Plugin::activate`: requires `initialized_` and `Inactive` status, then a
non-null plugin-side `activate` that returns true; only then moves to
`ActiveAndSleeping`. -/
def Plugin.activate (fns : ClapPluginFns) (s : PluginState) : Bool × PluginState :=
  if !s.initialized then (false, s)
  else if s.status ≠ PluginStatus.Inactive then (false, s)
  else
    match fns.activate with
    | none => (false, s)
    | some b =>
      if b then (true, { s with status := PluginStatus.ActiveAndSleeping })
      else (false, s)

/-- `Plugin::stopProcessing`: no-op unless `ActiveAndProcessing`; then calls
the (optional) plugin-side `stop_processing` and moves to sleeping. -/
def Plugin.stopProcessing (fns : ClapPluginFns) (s : PluginState) : PluginState :=
  if s.status ≠ PluginStatus.ActiveAndProcessing then s
  else { s with status := PluginStatus.ActiveAndSleeping }

/-- `Plugin::deactivate`: first stops processing when processing, then no-ops
unless `ActiveAndSleeping`, then moves to `Inactive`. -/
def Plugin.deactivate (fns : ClapPluginFns) (s : PluginState) : PluginState :=
  let s1 := if s.status = PluginStatus.ActiveAndProcessing
            then Plugin.stopProcessing fns s else s
  if s1.status ≠ PluginStatus.ActiveAndSleeping then s1
  else { s1 with status := PluginStatus.Inactive }

/-- `Plugin::startProcessing`: fails unless `ActiveAndSleeping`; a null
plugin-side `start_processing` pointer is treated as optional and the state
still advances; otherwise the plugin-side call decides. -/
def Plugin.startProcessing (fns : ClapPluginFns) (s : PluginState) : Bool × PluginState :=
  if s.status ≠ PluginStatus.ActiveAndSleeping then (false, s)
  else
    match fns.start_processing with
    | none => (true, { s with status := PluginStatus.ActiveAndProcessing })
    | some b =>
      if b then (true, { s with status := PluginStatus.ActiveAndProcessing })
      else (false, s)

/-- `Plugin::process`: returns `CLAP_PROCESS_ERROR` unless the plugin is
`ActiveAndProcessing` with a non-null `process` pointer; otherwise returns
whatever the plugin-side `process` returns. -/
def Plugin.process (fns : ClapPluginFns) (s : PluginState) : Int :=
  if s.status ≠ PluginStatus.ActiveAndProcessing then CLAP_PROCESS_ERROR
  else
    match fns.process with
    | none => CLAP_PROCESS_ERROR
    | some st => st

/-! Concrete inputs used by witnesses for the state-machine claims. -/

/-- A fully populated plugin-side function table. -/
def fnsAllPresent : ClapPluginFns :=
  { init := some true, activate := some true, start_processing := some true,
    stop_processing := true, process := some 1 }

/-- A function table whose `start_processing` pointer is null. -/
def fnsNoStartProcessing : ClapPluginFns :=
  { init := some true, activate := some true, start_processing := none,
    stop_processing := true, process := some 1 }

/-- Uninitialized inactive plugin state. -/
def stateFresh : PluginState := { initialized := false, status := PluginStatus.Inactive }

/-- Initialized inactive plugin state. -/
def stateInitialized : PluginState := { initialized := true, status := PluginStatus.Inactive }

/-- Initialized, activated, sleeping plugin state. -/
def stateSleeping : PluginState :=
  { initialized := true, status := PluginStatus.ActiveAndSleeping }

/-! ## Validator host (src/plugin/host.h and its implementation file)

Thread identities are modelled as natural numbers; `std::thread::id{}` (the
null id stored by `clearAudioThread`) is modelled as `none`. -/

/-- The host-side state the CLAP callbacks read and write: the captured
main-thread id, the atomic (optional) audio-thread id, the mutex-guarded
first-error slot, and the two request flags. -/
structure HostState where
  mainThreadId : Nat
  audioThreadId : Option Nat
  callbackError : Option String
  requestedCallback : Bool
  requestedRestart : Bool
deriving DecidableEq, Repr

/-- A `const clap_host_t *` as seen by a callback: `none` is a null pointer,
`some none` a host whose `host_data` is null, and `some (some h)` a pointer to
a live validator host. -/
def ClapHostPtr : Type := Option (Option HostState)

/-- `Host::fromClapHost`: null if the pointer or its `host_data` is null. -/
def Host.fromClapHost : ClapHostPtr → Option HostState
  | none => none
  | some none => none
  | some (some h) => some h

/-- `Host::isMainThread`: the current thread equals the constructing thread. -/
def Host.isMainThread (h : HostState) (currentThread : Nat) : Bool :=
  currentThread = h.mainThreadId

/-- `Host::isAudioThread`: the stored audio id is non-null and equals the
current thread. -/
def Host.isAudioThread (h : HostState) (currentThread : Nat) : Bool :=
  match h.audioThreadId with
  | none => false
  | some audioId => currentThread = audioId

/-- `Host::setCallbackError`: stores the message only when no earlier error
message is present. -/
def Host.setCallbackError (h : HostState) (error : String) : HostState :=
  match h.callbackError with
  | some _ => h
  | none => { h with callbackError := some error }

/-- `Host::assertMainThread`: records an error when called off the main
thread. -/
def Host.assertMainThread (h : HostState) (currentThread : Nat)
    (functionName : String) : HostState :=
  if Host.isMainThread h currentThread then h
  else Host.setCallbackError h (functionName ++ " must be called from the main thread")

/-- `Host::assertNotAudioThread`: records an error when called on the audio
thread. -/
def Host.assertNotAudioThread (h : HostState) (currentThread : Nat)
    (functionName : String) : HostState :=
  if Host.isAudioThread h currentThread then
    Host.setCallbackError h (functionName ++ " must not be called from the audio thread")
  else h

/-- The three host extension tables `Host::getExtension` can return. -/
inductive HostExtension where
  | threadCheck
  | params
  | state
deriving DecidableEq, Repr

/-- `CLAP_EXT_THREAD_CHECK` from the CLAP headers. -/
def CLAP_EXT_THREAD_CHECK : String := "clap.thread-check"

/-- `CLAP_EXT_PARAMS` from the CLAP headers. -/
def CLAP_EXT_PARAMS : String := "clap.params"

/-- `CLAP_EXT_STATE` from the CLAP headers. -/
def CLAP_EXT_STATE : String := "clap.state"

/-- `Host::getExtension` callback: null host, null `host_data` or null
extension id yield null; otherwise the three known ids yield the matching
table. -/
def Host.getExtension (chp : ClapHostPtr) (extensionId : Option String) :
    Option HostExtension :=
  match Host.fromClapHost chp, extensionId with
  | none, _ => none
  | some _, none => none
  | some _, some id =>
    if id = CLAP_EXT_THREAD_CHECK then some HostExtension.threadCheck
    else if id = CLAP_EXT_PARAMS then some HostExtension.params
    else if id = CLAP_EXT_STATE then some HostExtension.state
    else none

/-- `Host::requestRestart` callback: sets the restart flag when the host is
reachable, otherwise does nothing (result `none` means no host state was
touched). -/
def Host.requestRestart (chp : ClapHostPtr) : Option HostState :=
  (Host.fromClapHost chp).map fun h => { h with requestedRestart := true }

/-- `Host::requestProcess` callback: not implemented for the validator; the
host pointer is ignored and no state is touched. -/
def Host.requestProcess (chp : ClapHostPtr) : Option HostState :=
  none

/-- `Host::requestCallback` callback: sets the callback flag when the host is
reachable, otherwise does nothing. -/
def Host.requestCallback (chp : ClapHostPtr) : Option HostState :=
  (Host.fromClapHost chp).map fun h => { h with requestedCallback := true }

/-- `Host::isMainThreadExt` callback: false when the host is unreachable. -/
def Host.isMainThreadExt (chp : ClapHostPtr) (currentThread : Nat) : Bool :=
  match Host.fromClapHost chp with
  | none => false
  | some h => Host.isMainThread h currentThread

/-- `Host::isAudioThreadExt` callback: false when the host is unreachable. -/
def Host.isAudioThreadExt (chp : ClapHostPtr) (currentThread : Nat) : Bool :=
  match Host.fromClapHost chp with
  | none => false
  | some h => Host.isAudioThread h currentThread

/-- `Host::paramsRescan` callback: asserts the main thread; the flags argument
is ignored. -/
def Host.paramsRescan (chp : ClapHostPtr) (flags : Nat) (currentThread : Nat) :
    Option HostState :=
  (Host.fromClapHost chp).map fun h =>
    Host.assertMainThread h currentThread "clap_host_params::rescan()"

/-- `Host::paramsClear` callback: asserts the main thread; the param id and
flags arguments are ignored. -/
def Host.paramsClear (chp : ClapHostPtr) (paramId : Nat) (flags : Nat)
    (currentThread : Nat) : Option HostState :=
  (Host.fromClapHost chp).map fun h =>
    Host.assertMainThread h currentThread "clap_host_params::clear()"

/-- `Host::paramsRequestFlush` callback: asserts that the caller is not on the
audio thread. -/
def Host.paramsRequestFlush (chp : ClapHostPtr) (currentThread : Nat) :
    Option HostState :=
  (Host.fromClapHost chp).map fun h =>
    Host.assertNotAudioThread h currentThread "clap_host_params::request_flush()"

/-- `Host::stateMarkDirty` callback: asserts the main thread. -/
def Host.stateMarkDirty (chp : ClapHostPtr) (currentThread : Nat) :
    Option HostState :=
  (Host.fromClapHost chp).map fun h =>
    Host.assertMainThread h currentThread "clap_host_state::mark_dirty()"

/-- A concrete host used by the host-callback witnesses: main thread 0, no
audio-thread mark, no stored error. -/
def hostFresh : HostState :=
  { mainThreadId := 0, audioThreadId := none, callbackError := none,
    requestedCallback := false, requestedRestart := false }

/-- A concrete host whose audio-thread mark is thread 7 and whose error slot
already holds a message. -/
def hostMarked : HostState :=
  { mainThreadId := 0, audioThreadId := some 7, callbackError := some "earlier",
    requestedCallback := false, requestedRestart := false }

/-- The error message `assertMainThread` builds for `params.rescan`. -/
def rescanOffMainMsg : String := "clap_host_params::rescan() must be called from the main thread"

/-- The error message `assertMainThread` builds for `params.clear`. -/
def clearOffMainMsg : String := "clap_host_params::clear() must be called from the main thread"

/-- The error message `assertMainThread` builds for `state.mark_dirty`. -/
def markDirtyOffMainMsg : String := "clap_host_state::mark_dirty() must be called from the main thread"

/-- The error message `assertNotAudioThread` builds for `params.request_flush`. -/
def flushOnAudioMsg : String := "clap_host_params::request_flush() must not be called from the audio thread"

/-! ## Library metadata (src/plugin/library.cpp and src/util.cpp)

A factory descriptor carries nullable C strings, modelled as `Option String`,
and a nullable null-terminated feature array, modelled as
`Option (List String)`. -/

/-- The fields of a `clap_plugin_descriptor_t` the facade copies out. -/
structure FactoryDescriptor where
  id : Option String
  name : Option String
  version : Option String
  vendor : Option String
  description : Option String
  manual_url : Option String
  support_url : Option String
  features : Option (List String)
deriving DecidableEq, Repr

/-- `cstrToString` (util.cpp): throws on a null pointer, otherwise copies the
string (an empty string is accepted). -/
def cstrToString : Option String → Except String String
  | none => Except.error "Null pointer passed to cstrToString"
  | some s => Except.ok s

/-- `cstrToOptionalString` (util.cpp): null or empty becomes `none`. -/
def cstrToOptionalString : Option String → Option String
  | none => none
  | some s => if s = "" then none else some s

/-- `cstrArrayToVector` (util.cpp): a null array yields the empty vector. -/
def cstrArrayToVector : Option (List String) → List String
  | none => []
  | some l => l

/-- An owned snapshot of one plugin descriptor (library.h). -/
structure PluginMetadata where
  id : String
  name : String
  version : Option String
  vendor : Option String
  description : Option String
  manualUrl : Option String
  supportUrl : Option String
  features : List String
deriving DecidableEq, Repr

/-- `PluginMetadata::fromDescriptor` on a non-null descriptor: `id` and `name`
go through `cstrToString` (which throws only on null), the optional strings
through `cstrToOptionalString`, the features through `cstrArrayToVector`. -/
def PluginMetadata.fromDescriptor (d : FactoryDescriptor) :
    Except String PluginMetadata :=
  match cstrToString d.id with
  | Except.error e => Except.error e
  | Except.ok id =>
    match cstrToString d.name with
    | Except.error e => Except.error e
    | Except.ok name =>
      Except.ok
        { id := id, name := name,
          version := cstrToOptionalString d.version,
          vendor := cstrToOptionalString d.vendor,
          description := cstrToOptionalString d.description,
          manualUrl := cstrToOptionalString d.manual_url,
          supportUrl := cstrToOptionalString d.support_url,
          features := cstrArrayToVector d.features }

/-- Library-level metadata snapshot (library.h). -/
structure PluginLibraryMetadata where
  versionMajor : Nat
  versionMinor : Nat
  versionRevision : Nat
  plugins : List PluginMetadata
deriving DecidableEq, Repr

/-- The descriptor loop of `PluginLibrary::metadata` over the factory's
descriptor list: arguments are the remaining descriptors, the index `i`, the
`seenIds` set and the accumulated plugins; a null descriptor, a descriptor
conversion failure or a repeated id raise the corresponding error. -/
def PluginLibrary.metadataLoop :
    List (Option FactoryDescriptor) → Nat → List String → List PluginMetadata →
      Except String (List PluginMetadata)
  | [], _, _, acc => Except.ok acc.reverse
  | none :: _, i, _, _ =>
    Except.error ("The plugin returned a null plugin descriptor for plugin index "
      ++ toString i)
  | some d :: rest, i, seen, acc =>
    match PluginMetadata.fromDescriptor d with
    | Except.error e => Except.error e
    | Except.ok pm =>
      if pm.id ∈ seen then
        Except.error
          ("The plugin\x27s factory contains multiple entries for the same plugin ID: "
            ++ pm.id)
      else PluginLibrary.metadataLoop rest (i + 1) (pm.id :: seen) (pm :: acc)

/-- `PluginLibrary::metadata`: fails when the plugin factory is absent,
otherwise records the entry-point CLAP version and runs the descriptor
loop. -/
def PluginLibrary.metadata (versionMajor versionMinor versionRevision : Nat) :
    Option (List (Option FactoryDescriptor)) → Except String PluginLibraryMetadata
  | none => Except.error "The plugin does not support the plugin factory"
  | some descriptors =>
    match PluginLibrary.metadataLoop descriptors 0 [] [] with
    | Except.error e => Except.error e
    | Except.ok plugins =>
      Except.ok { versionMajor := versionMajor, versionMinor := versionMinor,
                  versionRevision := versionRevision, plugins := plugins }

/-- Whether a (possibly null) descriptor carries the non-null id `s`. -/
def descHasId (s : String) : Option FactoryDescriptor → Bool
  | none => false
  | some d => d.id = some s

/-- A descriptor whose id is the non-null empty string. -/
def emptyIdDescriptor : FactoryDescriptor :=
  { id := some "", name := some "Empty Id Plugin", version := none,
    vendor := none, description := none, manual_url := none,
    support_url := none, features := none }

/-- A minimal descriptor with the given id, as in spec scenario S2. -/
def namedDescriptor (s : String) : FactoryDescriptor :=
  { id := some s, name := some s, version := none, vendor := none,
    description := none, manual_url := none, support_url := none,
    features := none }

/-- A factory exposing two descriptors that share the id `a`. -/
def dupFactory : List (Option FactoryDescriptor) :=
  [some (namedDescriptor "a"), some (namedDescriptor "a")]

/-- Whether an `Except` result is a success (a C++ call that did not throw). -/
def exceptIsOk {α : Type} : Except String α → Bool
  | Except.ok _ => true
  | Except.error _ => false

/-- The plugin snapshot produced for `emptyIdDescriptor`. -/
def emptyIdPluginMeta : PluginMetadata :=
  { id := "", name := "Empty Id Plugin", version := none, vendor := none,
    description := none, manualUrl := none, supportUrl := none, features := [] }

/-- The metadata produced for the single-descriptor factory with id `""`. -/
def emptyIdMetadata : PluginLibraryMetadata :=
  { versionMajor := 1, versionMinor := 2, versionRevision := 2,
    plugins := [emptyIdPluginMeta] }

/-- The plugin snapshot produced for `namedDescriptor "a"`. -/
def singleIdPluginMeta : PluginMetadata :=
  { id := "a", name := "a", version := none, vendor := none,
    description := none, manualUrl := none, supportUrl := none, features := [] }

/-- The metadata produced for the single-descriptor factory with id `a`. -/
def singleIdMetadata : PluginLibraryMetadata :=
  { versionMajor := 1, versionMinor := 2, versionRevision := 2,
    plugins := [singleIdPluginMeta] }

/-! ## Test results (src/tests/test_case.h) -/

/-- The result status of running a test (enum order as in test_case.h). -/
inductive TestStatusCode where
  | Success
  | Crashed
  | Failed
  | Skipped
  | Warning
deriving DecidableEq, Repr

/-- The result of running a test case. -/
structure TestResult where
  name : String
  description : String
  status : TestStatusCode
  details : Option String
deriving DecidableEq, Repr

/-- `TestResult::success`. -/
def TestResult.success (name description : String) (details : Option String) : TestResult :=
  { name := name, description := description, status := TestStatusCode.Success,
    details := details }

/-- `TestResult::failed`. -/
def TestResult.failed (name description : String) (details : Option String) : TestResult :=
  { name := name, description := description, status := TestStatusCode.Failed,
    details := details }

/-- `TestResult::skipped`. -/
def TestResult.skipped (name description : String) (details : Option String) : TestResult :=
  { name := name, description := description, status := TestStatusCode.Skipped,
    details := details }

/-! ## Test filtering and the validate command (src/commands/validate.cpp)

The C++ regex engine is abstracted by two oracles: `regexCompiles pat` tells
whether `std::regex(pat, icase)` constructs without throwing, and
`regexSearchIcase pat name` the result of `std::regex_search(name, regex)`
for the case-insensitive regex built from `pat`. -/

/-- `ValidatorSettings` (validator.h); paths are abstract strings. -/
structure ValidatorSettings where
  paths : List String
  pluginId : Option String
  testFilter : Option String
  invertFilter : Bool
  json : Bool
  onlyFailed : Bool
  inProcess : Bool
deriving DecidableEq, Repr

/-- `testName.find(pattern) != std::string::npos`: case-sensitive substring
containment. -/
def containsSubstr (hay pat : String) : Bool :=
  decide (List.IsInfix pat.toList hay.toList)

/-- `commands::matchesFilter`: no filter matches everything; a compiling
pattern is searched case-insensitively as a regex; a non-compiling pattern
falls back to case-sensitive substring; the invert flag negates the pattern
match. -/
def commands.matchesFilter (regexCompiles : String → Bool)
    (regexSearchIcase : String → String → Bool) (testName : String)
    (settings : ValidatorSettings) : Bool :=
  match settings.testFilter with
  | none => true
  | some pat =>
    if regexCompiles pat then
      let m := regexSearchIcase pat testName
      if settings.invertFilter then !m else m
    else
      let m := containsSubstr testName pat
      if settings.invertFilter then !m else m

/-- The four counters `commands::validate` accumulates. -/
structure Tally where
  passed : Nat
  failed : Nat
  skipped : Nat
  warnings : Nat
deriving DecidableEq, Repr

/-- All counters zero, as at the start of `commands::validate`. -/
def tallyZero : Tally := { passed := 0, failed := 0, skipped := 0, warnings := 0 }

/-- The `switch (result.status)` counter update in `commands::validate`:
`Failed` and `Crashed` both increment the failure counter. -/
def Tally.add (t : Tally) (s : TestStatusCode) : Tally :=
  match s with
  | TestStatusCode.Success => { t with passed := t.passed + 1 }
  | TestStatusCode.Failed => { t with failed := t.failed + 1 }
  | TestStatusCode.Crashed => { t with failed := t.failed + 1 }
  | TestStatusCode.Skipped => { t with skipped := t.skipped + 1 }
  | TestStatusCode.Warning => { t with warnings := t.warnings + 1 }

/-- What `PluginLibrary::load` plus `metadata()` yield for one path when they
do not throw: the version-compatibility flag and, per enumerated plugin that
passes the plugin-id filter, the statuses of its filtered plugin tests. -/
structure LoadedLibrary where
  compatible : Bool
  pluginResults : List (List TestStatusCode)
deriving DecidableEq, Repr

/-- One path of `commands::validate`: the statuses of the filtered library
tests, and the load outcome (`none` models the catch of a load or metadata
exception). -/
structure PathRun where
  libraryResults : List TestStatusCode
  loadOutcome : Option LoadedLibrary
deriving DecidableEq, Repr

/-- The per-path body of `commands::validate`: tally the library tests; a
load exception counts one failure; an incompatible CLAP version skips the
plugin tests; otherwise tally every plugin test of every plugin. -/
def runPath (t : Tally) (pr : PathRun) : Tally :=
  let t1 := pr.libraryResults.foldl Tally.add t
  match pr.loadOutcome with
  | none => { t1 with failed := t1.failed + 1 }
  | some lib =>
    if lib.compatible then
      lib.pluginResults.foldl (fun acc res => res.foldl Tally.add acc) t1
    else t1

/-- `commands::validate`: an empty path list is an argument error returning
1; otherwise the tally is accumulated over all paths and the exit code is 1
exactly when the failure counter is positive. -/
def commands.validate : List PathRun → Nat
  | [] => 1
  | r :: rs => if ((r :: rs).foldl runPath tallyZero).failed > 0 then 1 else 0

/-- Whether a status increments the failure counter. -/
def statusIsFailure : TestStatusCode → Bool
  | TestStatusCode.Failed => true
  | TestStatusCode.Crashed => true
  | _ => false

/-- The number of failures one path contributes to the tally. -/
def pathFailures (pr : PathRun) : Nat :=
  pr.libraryResults.countP statusIsFailure +
    match pr.loadOutcome with
    | none => 1
    | some lib =>
      if lib.compatible then
        (lib.pluginResults.map (fun res => res.countP statusIsFailure)).sum
      else 0

/-- Builds the `PathRun` of a path whose library, once loaded, exposes the
given factory: a `metadata()` error is caught and modelled as a failed
load. -/
def pathRunForFactory (libraryResults : List TestStatusCode) (v1 v2 v3 : Nat)
    (factory : Option (List (Option FactoryDescriptor))) (compatible : Bool)
    (pluginResults : List (List TestStatusCode)) : PathRun :=
  { libraryResults := libraryResults,
    loadOutcome :=
      match PluginLibrary.metadata v1 v2 v3 factory with
      | Except.error _ => none
      | Except.ok _ => some { compatible := compatible, pluginResults := pluginResults } }

/-- `commands::listPlugins` over the load results of the discovered plugin
paths: a failed load prints a warning on stderr (first component) and the
function always returns exit code 0 (second component). -/
def commands.listPlugins (loads : List (Except String PluginLibraryMetadata))
    (json : Bool) : List String × Nat :=
  (loads.filterMap (fun r =>
    match r with
    | Except.error e => some ("Warning: Could not load: " ++ e)
    | Except.ok _ => none), 0)

/-- A path whose library loads, is compatible, and whose single plugin passes
its single test. -/
def pathRunSuccess : PathRun :=
  { libraryResults := [TestStatusCode.Success],
    loadOutcome := some { compatible := true, pluginResults := [[TestStatusCode.Success]] } }

/-! ## State-reproducibility test (src/tests/plugin_tests.cpp)

`PluginTests::testStateReproducibilityImpl` drives two instances of one
plugin through the state extension.  The plugin is modelled by its
private parameter values (`freshParams`, an id-value association as created
by the factory), its `state.save` serialization of those values and its
`state.load` state update; `none` models a plugin-side call returning
false. -/

/-- The plugin behaviour consulted by the state-reproducibility test. -/
structure StatePluginModel where
  initOk : Bool
  hasStateExt : Bool
  hasParamsExt : Bool
  freshParams : List (Nat × Int)
  save : List (Nat × Int) → Option (List Nat)
  load : List Nat → List (Nat × Int) → Option (List (Nat × Int))

/-- `PluginTests::testStateReproducibilityImpl`: create and init an instance,
require the state extension (the params extension is fetched but unused),
save the fresh state to S1, create and init a second fresh instance, load S1
into it, save the second instance to S2, succeed iff S1 = S2 byte for byte.
No parameters are randomized and no parameter values are compared. -/
def PluginTests.testStateReproducibilityImpl (m : StatePluginModel)
    (zeroOutCookies : Bool) : TestResult :=
  let testName := if zeroOutCookies then "state-reproducibility-null-cookies"
                  else "state-reproducibility-basic"
  let description := "Tests state save/load reproducibility."
  if !m.initOk then
    TestResult.failed testName description (some "Failed to initialize plugin")
  else if !m.hasStateExt then
    TestResult.skipped testName description
      (some "Plugin does not support state extension")
  else
    match m.save m.freshParams with
    | none => TestResult.failed testName description (some "Failed to save initial state")
    | some s1 =>
      if !m.initOk then
        TestResult.failed testName description
          (some "Failed to initialize second plugin instance")
      else
        match m.load s1 m.freshParams with
        | none => TestResult.failed testName description (some "Failed to load state")
        | some st2 =>
          match m.save st2 with
          | none =>
            TestResult.failed testName description
              (some "Failed to save state from second instance")
          | some s2 =>
            if s1 = s2 then TestResult.success testName description none
            else
              TestResult.failed testName description
                (some "State mismatch: saved states are different after load/save cycle")

/-- `PluginTests::testStateReproducibilityBasic`. -/
def PluginTests.testStateReproducibilityBasic (m : StatePluginModel) : TestResult :=
  PluginTests.testStateReproducibilityImpl m false

/-- A plugin whose `load` does not restore the saved parameter values (the
second instance ends with value 7 where the first held 5) but whose `save`
always emits the same bytes. -/
def stateReproDivergentPlugin : StatePluginModel :=
  { initOk := true, hasStateExt := true, hasParamsExt := true,
    freshParams := [(0, 5)],
    save := fun _ => some [9],
    load := fun _ _ => some [(0, 7)] }

/-! ## Wrong-namespace parameter test (src/tests/plugin_tests.cpp) -/

/-- The fields of `clap_param_info_t` the test reads. -/
structure ParamInfoModel where
  id : Nat
  cookie : Nat
  minValue : Int
  maxValue : Int
deriving DecidableEq, Repr

/-- A `clap_event_param_value_t` as built by the test (the struct-size header
field is a layout constant and is omitted). -/
structure ClapEventParamValue where
  time : Nat
  space_id : Nat
  type : Nat
  flags : Nat
  param_id : Nat
  cookie : Nat
  note_id : Int
  port_index : Int
  channel : Int
  key : Int
  value : Int
deriving DecidableEq, Repr

/-- `CLAP_EVENT_PARAM_VALUE` from the CLAP headers. -/
def CLAP_EVENT_PARAM_VALUE : Nat := 5

/-- The deliberately wrong namespace id `0xb33f` used by the test. -/
def INCORRECT_NAMESPACE_ID : Nat := 0xb33f

/-- One wrong-namespace event as the test builds it for a parameter, with a
random value drawn within the parameter range. -/
def wrongNamespaceEvent (info : ParamInfoModel) (randomValue : Int) :
    ClapEventParamValue :=
  { time := 0, space_id := INCORRECT_NAMESPACE_ID, type := CLAP_EVENT_PARAM_VALUE,
    flags := 0, param_id := info.id, cookie := info.cookie, note_id := -1,
    port_index := -1, channel := -1, key := -1, value := randomValue }

/-- The event-building loop: one event per collected parameter info, with the
abstract randomness indexed by loop position. -/
def wrongNsEvents : List ParamInfoModel → (Nat → Int) → Nat → List ClapEventParamValue
  | [], _, _ => []
  | info :: rest, rv, i => wrongNamespaceEvent info (rv i) :: wrongNsEvents rest rv (i + 1)

/-- `std::map<clap_id, double>::operator[]` insertion: sorted by key,
overwriting an existing binding. -/
def mapInsert : List (Nat × Int) → Nat → Int → List (Nat × Int)
  | [], k, v => [(k, v)]
  | (k0, v0) :: rest, k, v =>
    if k < k0 then (k, v) :: (k0, v0) :: rest
    else if k = k0 then (k, v) :: rest
    else (k0, v0) :: mapInsert rest k v

/-- Outcome of the loop collecting parameter infos and initial values. -/
inductive BeforeLoopResult where
  | failedInfo
  | failedValue
  | ok (infos : List ParamInfoModel) (values : List (Nat × Int))
deriving DecidableEq, Repr

/-- The first loop of the wrong-namespace test: per index, `get_info` (a null
entry models failure) then `get_value`, building the initial value map. -/
def beforeLoop (get : Nat → Option Int) :
    List (Option ParamInfoModel) → List ParamInfoModel → List (Nat × Int) →
      BeforeLoopResult
  | [], infosAcc, valuesAcc => BeforeLoopResult.ok infosAcc.reverse valuesAcc
  | none :: _, _, _ => BeforeLoopResult.failedInfo
  | some info :: rest, infosAcc, valuesAcc =>
    match get info.id with
    | none => BeforeLoopResult.failedValue
    | some v => beforeLoop get rest (info :: infosAcc) (mapInsert valuesAcc info.id v)

/-- The final loop of the wrong-namespace test: re-read every parameter value
after processing. -/
def afterLoop (get : Nat → Option Int) :
    List ParamInfoModel → List (Nat × Int) → Option (List (Nat × Int))
  | [], acc => some acc
  | info :: rest, acc =>
    match get info.id with
    | none => none
    | some v => afterLoop get rest (mapInsert acc info.id v)

/-- The failure detail the test emits when values change; note that
`std::to_string` renders `INCORRECT_NAMESPACE_ID` in decimal after the `0x`
prefix. -/
def wrongNsDetail : String :=
  "Sending events with type ID " ++ toString CLAP_EVENT_PARAM_VALUE ++
    " (CLAP_EVENT_PARAM_VALUE) and namespace ID 0x" ++ toString INCORRECT_NAMESPACE_ID ++
    " to the plugin caused its parameter values to change. " ++
    "This should not happen. The plugin may not be checking the event\x27s " ++
    "namespace ID."

/-- The plugin behaviour consulted by the wrong-namespace test: init result,
params extension presence, the `get_info` results, the `get_value` results
before and after the one processed block, the activation chain results, the
`process` status and the random values the test draws. -/
structure WrongNsModel where
  initOk : Bool
  hasParamsExt : Bool
  paramInfos : List (Option ParamInfoModel)
  getValueBefore : Nat → Option Int
  activateOk : Bool
  startProcessingOk : Bool
  processStatus : Int
  getValueAfter : Nat → Option Int
  randomValues : Nat → Int

/-- `PluginTests::testParamSetWrongNamespace`: capture all parameter values,
build one wrong-namespace `PARAM_VALUE` event per parameter, process one
block with those events, re-read all values and succeed iff they are
unchanged.  The second component is the event list handed to `process`. -/
def PluginTests.testParamSetWrongNamespace (m : WrongNsModel) :
    TestResult × List ClapEventParamValue :=
  let testName := "param-set-wrong-namespace"
  let description := "Tests that plugin ignores param events with wrong namespace."
  if !m.initOk then
    (TestResult.failed testName description (some "Failed to initialize plugin"), [])
  else if !m.hasParamsExt then
    (TestResult.skipped testName description
      (some "Plugin does not support params extension"), [])
  else if m.paramInfos.length = 0 then
    (TestResult.skipped testName description (some "Plugin has no parameters"), [])
  else
    match beforeLoop m.getValueBefore m.paramInfos [] [] with
    | BeforeLoopResult.failedInfo =>
      (TestResult.failed testName description (some "Failed to get parameter info"), [])
    | BeforeLoopResult.failedValue =>
      (TestResult.failed testName description (some "Failed to get parameter value"), [])
    | BeforeLoopResult.ok infos initialParamValues =>
      let paramEvents := wrongNsEvents infos m.randomValues 0
      if !m.activateOk then
        (TestResult.failed testName description (some "Failed to activate plugin"),
          paramEvents)
      else if !m.startProcessingOk then
        (TestResult.failed testName description (some "Failed to start processing"),
          paramEvents)
      else if m.processStatus = CLAP_PROCESS_ERROR then
        (TestResult.failed testName description (some "Process returned error"),
          paramEvents)
      else
        match afterLoop m.getValueAfter infos [] with
        | none =>
          (TestResult.failed testName description
            (some "Failed to get parameter value after processing"), paramEvents)
        | some actualParamValues =>
          if actualParamValues = initialParamValues then
            (TestResult.success testName description none, paramEvents)
          else
            (TestResult.failed testName description (some wrongNsDetail), paramEvents)

/-- A one-parameter plugin whose value is unaffected by the wrong-namespace
events, used by the C8 witness. -/
def wrongNsIgnoringPlugin : WrongNsModel :=
  { initOk := true, hasParamsExt := true,
    paramInfos := [some { id := 42, cookie := 0, minValue := 0, maxValue := 10 }],
    getValueBefore := fun _ => some 3,
    activateOk := true, startProcessingOk := true, processStatus := 1,
    getValueAfter := fun _ => some 3,
    randomValues := fun _ => 7 }

/-! ## Parameter-conversions test (src/tests/plugin_tests.cpp) -/

/-- What a parameter advertises to the conversions test: its id and whether
text conversion capability is advertised for it.  The implementation never
consults the capability or any conversion function. -/
structure ConvParamInfo where
  id : Nat
  supportsTextConversion : Bool
deriving DecidableEq, Repr

/-- The plugin behaviour consulted by the conversions test: init result,
params extension presence and the per-index `get_info` results. -/
structure ParamConvModel where
  initOk : Bool
  hasParamsExt : Bool
  paramInfos : List (Option ConvParamInfo)
deriving Repr

/-- The `get_info` loop of the conversions test: index of the first failing
`get_info`, if any. -/
def convLoop : List (Option ConvParamInfo) → Nat → Option Nat
  | [], _ => none
  | none :: _, i => some i
  | some _ :: rest, i => convLoop rest (i + 1)

/-- `PluginTests::testParamConversions` as implemented: require init, the
params extension and a positive parameter count, then merely query every
parameter info; no value/text conversion is ever performed. -/
def PluginTests.testParamConversions (m : ParamConvModel) : TestResult :=
  let testName := "param-conversions"
  let description := "Parameter value/string conversion test."
  if !m.initOk then
    TestResult.failed testName description (some "Failed to initialize plugin")
  else if !m.hasParamsExt then
    TestResult.skipped testName description
      (some "Plugin does not support params extension")
  else if m.paramInfos.length = 0 then
    TestResult.skipped testName description (some "Plugin has no parameters")
  else
    match convLoop m.paramInfos 0 with
    | some i =>
      TestResult.failed testName description
        (some ("Failed to get info for parameter index " ++ toString i))
    | none =>
      TestResult.success testName description
        (some ("Successfully queried " ++ toString m.paramInfos.length ++ " parameters"))

/-- A plugin that advertises text conversion for its first parameter but not
its second. -/
def paramConvPartialModel : ParamConvModel :=
  { initOk := true, hasParamsExt := true,
    paramInfos := [some { id := 0, supportsTextConversion := true },
      some { id := 1, supportsTextConversion := false }] }

/-! ## Theorems for the plugin state machine -/

/-- C1: `process()` returns `CLAP_PROCESS_ERROR` whenever the plugin is not in
the `ActiveAndProcessing` state; a transition whose adjacent target is already
the current state silently no-ops (`init` when initialized returns true,
`deactivate` when inactive and `stopProcessing` when not processing leave the
state unchanged); and every forbidden jump (`activate` when not initialized or
not inactive, `startProcessing` when not sleeping) returns false while leaving
the state unchanged. -/
theorem plugin_state_machine_guards (fns : ClapPluginFns) (s : PluginState) :
    (s.status ≠ PluginStatus.ActiveAndProcessing →
      Plugin.process fns s = CLAP_PROCESS_ERROR)
    ∧ (s.initialized = true → Plugin.init fns s = (true, s))
    ∧ (s.status = PluginStatus.Inactive → Plugin.deactivate fns s = s)
    ∧ (s.status ≠ PluginStatus.ActiveAndProcessing → Plugin.stopProcessing fns s = s)
    ∧ (s.initialized = false ∨ s.status ≠ PluginStatus.Inactive →
      Plugin.activate fns s = (false, s))
    ∧ (s.status ≠ PluginStatus.ActiveAndSleeping →
      Plugin.startProcessing fns s = (false, s)) := by
  refine ⟨?_, ?_, ?_, ?_, ?_, ?_⟩
  · intro h
    simp [Plugin.process, h]
  · intro h
    simp [Plugin.init, h]
  · intro h
    simp [Plugin.deactivate, Plugin.stopProcessing, h]
  · intro h
    simp [Plugin.stopProcessing, h]
  · rintro (h | h) <;> simp [Plugin.activate, h]
  · intro h
    simp [Plugin.startProcessing, h]

/-- Witness for C1 at concrete states of the machine. -/
theorem plugin_state_machine_guards_witness :
    Plugin.process fnsAllPresent stateSleeping = CLAP_PROCESS_ERROR
    ∧ Plugin.init fnsAllPresent stateInitialized = (true, stateInitialized)
    ∧ Plugin.deactivate fnsAllPresent stateFresh = stateFresh
    ∧ Plugin.stopProcessing fnsAllPresent stateSleeping = stateSleeping
    ∧ Plugin.activate fnsAllPresent stateSleeping = (false, stateSleeping)
    ∧ Plugin.startProcessing fnsAllPresent stateInitialized = (false, stateInitialized) :=
  ⟨(plugin_state_machine_guards fnsAllPresent stateSleeping).1 (by decide),
   (plugin_state_machine_guards fnsAllPresent stateInitialized).2.1 (by decide),
   (plugin_state_machine_guards fnsAllPresent stateFresh).2.2.1 (by decide),
   (plugin_state_machine_guards fnsAllPresent stateSleeping).2.2.2.1 (by decide),
   (plugin_state_machine_guards fnsAllPresent stateSleeping).2.2.2.2.1 (Or.inr (by decide)),
   (plugin_state_machine_guards fnsAllPresent stateInitialized).2.2.2.2.2 (by decide)⟩

/-- C2: calling `startProcessing` in `ActiveAndSleeping` with a null
plugin-side `start_processing` pointer returns true and advances the state to
`ActiveAndProcessing`. -/
theorem startProcessing_null_fn_advances (fns : ClapPluginFns) (s : PluginState)
    (hst : s.status = PluginStatus.ActiveAndSleeping)
    (hnull : fns.start_processing = none) :
    Plugin.startProcessing fns s =
      (true, { s with status := PluginStatus.ActiveAndProcessing }) := by
  simp [Plugin.startProcessing, hst, hnull]

/-- Witness for C2 at a concrete sleeping state. -/
theorem startProcessing_null_fn_advances_witness :
    Plugin.startProcessing fnsNoStartProcessing stateSleeping =
      (true, { stateSleeping with status := PluginStatus.ActiveAndProcessing }) :=
  startProcessing_null_fn_advances fnsNoStartProcessing stateSleeping rfl rfl

/-- C4: invoked through a live host, `params.rescan`, `params.clear` and
`state.mark_dirty` record a host-side error string exactly when the calling
thread differs from the host-creation thread; `params.request_flush` records
an error exactly when the audio-thread mark identifies the calling thread;
and a previously stored error message is never overwritten (first error
wins). -/
theorem host_thread_check_callbacks_record_first_error (h : HostState)
    (t flags paramId : Nat) (e : String) :
    (t ≠ h.mainThreadId → h.callbackError = none →
      Host.paramsRescan (some (some h)) flags t =
        some { h with callbackError := some rescanOffMainMsg })
    ∧ (t = h.mainThreadId → Host.paramsRescan (some (some h)) flags t = some h)
    ∧ (h.callbackError = some e → Host.paramsRescan (some (some h)) flags t = some h)
    ∧ (t ≠ h.mainThreadId → h.callbackError = none →
      Host.paramsClear (some (some h)) paramId flags t =
        some { h with callbackError := some clearOffMainMsg })
    ∧ (t = h.mainThreadId → Host.paramsClear (some (some h)) paramId flags t = some h)
    ∧ (h.callbackError = some e →
      Host.paramsClear (some (some h)) paramId flags t = some h)
    ∧ (t ≠ h.mainThreadId → h.callbackError = none →
      Host.stateMarkDirty (some (some h)) t =
        some { h with callbackError := some markDirtyOffMainMsg })
    ∧ (t = h.mainThreadId → Host.stateMarkDirty (some (some h)) t = some h)
    ∧ (h.callbackError = some e → Host.stateMarkDirty (some (some h)) t = some h)
    ∧ (Host.isAudioThread h t = true → h.callbackError = none →
      Host.paramsRequestFlush (some (some h)) t =
        some { h with callbackError := some flushOnAudioMsg })
    ∧ (Host.isAudioThread h t = false →
      Host.paramsRequestFlush (some (some h)) t = some h)
    ∧ (h.callbackError = some e →
      Host.paramsRequestFlush (some (some h)) t = some h) := by
  refine ⟨?_, ?_, ?_, ?_, ?_, ?_, ?_, ?_, ?_, ?_, ?_, ?_⟩
  · intro ht he
    simp [Host.paramsRescan, Host.fromClapHost, Host.assertMainThread,
      Host.isMainThread, Host.setCallbackError, rescanOffMainMsg, ht, he]
  · intro ht
    simp [Host.paramsRescan, Host.fromClapHost, Host.assertMainThread,
      Host.isMainThread, ht]
  · intro he
    simp [Host.paramsRescan, Host.fromClapHost, Host.assertMainThread,
      Host.isMainThread, Host.setCallbackError, he]
  · intro ht he
    simp [Host.paramsClear, Host.fromClapHost, Host.assertMainThread,
      Host.isMainThread, Host.setCallbackError, clearOffMainMsg, ht, he]
  · intro ht
    simp [Host.paramsClear, Host.fromClapHost, Host.assertMainThread,
      Host.isMainThread, ht]
  · intro he
    simp [Host.paramsClear, Host.fromClapHost, Host.assertMainThread,
      Host.isMainThread, Host.setCallbackError, he]
  · intro ht he
    simp [Host.stateMarkDirty, Host.fromClapHost, Host.assertMainThread,
      Host.isMainThread, Host.setCallbackError, markDirtyOffMainMsg, ht, he]
  · intro ht
    simp [Host.stateMarkDirty, Host.fromClapHost, Host.assertMainThread,
      Host.isMainThread, ht]
  · intro he
    simp [Host.stateMarkDirty, Host.fromClapHost, Host.assertMainThread,
      Host.isMainThread, Host.setCallbackError, he]
  · intro ha he
    simp [Host.paramsRequestFlush, Host.fromClapHost, Host.assertNotAudioThread,
      Host.setCallbackError, flushOnAudioMsg, ha, he]
  · intro ha
    simp [Host.paramsRequestFlush, Host.fromClapHost, Host.assertNotAudioThread, ha]
  · intro he
    by_cases ha : Host.isAudioThread h t = true
    · simp [Host.paramsRequestFlush, Host.fromClapHost, Host.assertNotAudioThread,
        Host.setCallbackError, ha, he]
    · simp [Host.paramsRequestFlush, Host.fromClapHost, Host.assertNotAudioThread,
        Host.setCallbackError, ha]

/-- Witness for C4: a fresh host called from a wrong thread records the rescan
error, a marked host with a stored error keeps it, and flush on the marked
audio thread keeps the first error. -/
theorem host_thread_check_callbacks_record_first_error_witness :
    Host.paramsRescan (some (some hostFresh)) 0 3 =
      some { hostFresh with callbackError := some rescanOffMainMsg }
    ∧ Host.stateMarkDirty (some (some hostFresh)) 0 = some hostFresh
    ∧ Host.paramsRequestFlush (some (some hostMarked)) 7 = some hostMarked :=
  ⟨(host_thread_check_callbacks_record_first_error hostFresh 3 0 0 "x").1
      (by decide) rfl,
   (host_thread_check_callbacks_record_first_error hostFresh 0 0 0 "x").2.2.2.2.2.2.2.1
      rfl,
   (host_thread_check_callbacks_record_first_error hostMarked 7 0 0
      "earlier").2.2.2.2.2.2.2.2.2.2.2 rfl⟩

/-- C10: every host-side callback is total with respect to a null `clap_host`
pointer or one whose `host_data` is null: `fromClapHost` returns null in both
cases, and each callback then returns null/false or touches no host state. -/
theorem host_callbacks_null_safe (chp : ClapHostPtr)
    (hnull : Host.fromClapHost chp = none) (extensionId : Option String)
    (t flags paramId : Nat) :
    Host.fromClapHost none = none
    ∧ Host.fromClapHost (some none) = none
    ∧ Host.getExtension chp extensionId = none
    ∧ Host.requestRestart chp = none
    ∧ Host.requestProcess chp = none
    ∧ Host.requestCallback chp = none
    ∧ Host.isMainThreadExt chp t = false
    ∧ Host.isAudioThreadExt chp t = false
    ∧ Host.paramsRescan chp flags t = none
    ∧ Host.paramsClear chp paramId flags t = none
    ∧ Host.paramsRequestFlush chp t = none
    ∧ Host.stateMarkDirty chp t = none := by
  refine ⟨rfl, rfl, ?_, ?_, rfl, ?_, ?_, ?_, ?_, ?_, ?_, ?_⟩
  · unfold Host.getExtension
    rw [hnull]
  · simp [Host.requestRestart, hnull]
  · simp [Host.requestCallback, hnull]
  · unfold Host.isMainThreadExt
    rw [hnull]
  · unfold Host.isAudioThreadExt
    rw [hnull]
  · simp [Host.paramsRescan, hnull]
  · simp [Host.paramsClear, hnull]
  · simp [Host.paramsRequestFlush, hnull]
  · simp [Host.stateMarkDirty, hnull]

/-- Witness for C10 at a literally null `clap_host` pointer. -/
theorem host_callbacks_null_safe_witness :
    Host.getExtension none (some CLAP_EXT_PARAMS) = none
    ∧ Host.requestRestart none = none
    ∧ Host.paramsRescan none 0 0 = none :=
  ⟨(host_callbacks_null_safe none rfl (some CLAP_EXT_PARAMS) 0 0 0).2.2.1,
   (host_callbacks_null_safe none rfl (some CLAP_EXT_PARAMS) 0 0 0).2.2.2.1,
   (host_callbacks_null_safe none rfl (some CLAP_EXT_PARAMS) 0 0 0).2.2.2.2.2.2.2.2.1⟩

/-- A descriptor that converts successfully exposes the id that was stored
into the produced metadata. -/
theorem fromDescriptor_ok_id (d : FactoryDescriptor) (pm : PluginMetadata)
    (h : PluginMetadata.fromDescriptor d = Except.ok pm) : d.id = some pm.id := by
  unfold PluginMetadata.fromDescriptor at h
  cases hd : d.id with
  | none => rw [hd] at h; simp [cstrToString] at h
  | some s =>
    rw [hd] at h
    cases hn : d.name with
    | none => rw [hn] at h; simp [cstrToString] at h
    | some n =>
      rw [hn] at h
      simp only [cstrToString] at h
      cases h
      rfl

/-- On success, the metadata loop produces plugins with pairwise distinct
ids, given that the accumulator ids are distinct and all recorded in
`seen`. -/
theorem metadataLoop_ok_nodup (ds : List (Option FactoryDescriptor)) :
    ∀ (i : Nat) (seen : List String) (acc L : List PluginMetadata),
      PluginLibrary.metadataLoop ds i seen acc = Except.ok L →
      (∀ pm ∈ acc, pm.id ∈ seen) → (acc.map PluginMetadata.id).Nodup →
      (L.map PluginMetadata.id).Nodup := by
  induction ds with
  | nil =>
    intro i seen acc L h hsub hnd
    simp only [PluginLibrary.metadataLoop, Except.ok.injEq] at h
    subst h
    simpa using hnd
  | cons head rest ih =>
    intro i seen acc L h hsub hnd
    cases head with
    | none => simp [PluginLibrary.metadataLoop] at h
    | some d =>
      rw [PluginLibrary.metadataLoop] at h
      cases hfd : PluginMetadata.fromDescriptor d with
      | error e => rw [hfd] at h; simp at h
      | ok pm =>
        rw [hfd] at h
        dsimp only at h
        by_cases hmem : pm.id ∈ seen
        · rw [if_pos hmem] at h; simp at h
        · rw [if_neg hmem] at h
          refine ih (i + 1) (pm.id :: seen) (pm :: acc) L h ?_ ?_
          · intro q hq
            rcases List.mem_cons.mp hq with hq | hq
            · subst hq; exact List.mem_cons_self _ _
            · exact List.mem_cons_of_mem _ (hsub q hq)
          · refine List.nodup_cons.mpr ⟨?_, hnd⟩
            intro hin
            rcases List.mem_map.mp hin with ⟨q, hq, hqid⟩
            exact hmem (hqid ▸ hsub q hq)

/-- If a plugin id occurs at least twice among the remaining descriptors and
the already-seen ids, the metadata loop ends in an error. -/
theorem metadataLoop_dup_isError (s : String) (ds : List (Option FactoryDescriptor)) :
    ∀ (i : Nat) (seen : List String) (acc : List PluginMetadata),
      2 ≤ ds.countP (descHasId s) + (if s ∈ seen then 1 else 0) →
      exceptIsOk (PluginLibrary.metadataLoop ds i seen acc) = false := by
  induction ds with
  | nil =>
    intro i seen acc h
    rw [List.countP_nil] at h
    exfalso
    by_cases hs : s ∈ seen
    · rw [if_pos hs] at h; omega
    · rw [if_neg hs] at h; omega
  | cons head rest ih =>
    intro i seen acc h
    cases head with
    | none => simp [PluginLibrary.metadataLoop, exceptIsOk]
    | some d =>
      rw [PluginLibrary.metadataLoop]
      cases hfd : PluginMetadata.fromDescriptor d with
      | error e => simp [exceptIsOk]
      | ok pm =>
        dsimp only
        by_cases hmem : pm.id ∈ seen
        · rw [if_pos hmem]; simp [exceptIsOk]
        · rw [if_neg hmem]
          refine ih (i + 1) (pm.id :: seen) (pm :: acc) ?_
          have hid := fromDescriptor_ok_id d pm hfd
          rw [List.countP_cons] at h
          by_cases hds : descHasId s (some d) = true
          · have hds2 : d.id = some s := by simpa [descHasId] using hds
            have hpm : pm.id = s := Option.some_inj.mp (hid.symm.trans hds2)
            subst hpm
            rw [if_pos hds, if_neg hmem] at h
            rw [if_pos (List.mem_cons_self pm.id seen)]
            omega
          · have hne : ¬ d.id = some s := by simpa [descHasId] using hds
            have hsne : s ≠ pm.id := fun hq => hne (by rw [hid, hq])
            rw [if_neg hds] at h
            by_cases hsseen : s ∈ seen
            · rw [if_pos hsseen] at h
              rw [if_pos (List.mem_cons_of_mem _ hsseen)]
              omega
            · rw [if_neg hsseen] at h
              have hnotcons : s ∉ pm.id :: seen := by
                intro hc
                rcases List.mem_cons.mp hc with hc | hc
                · exact hsne hc
                · exact hsseen hc
              rw [if_neg hnotcons]
              omega

/-- C3 counterexample: a factory whose single descriptor has the non-null but
empty id `""` is accepted by `PluginLibrary::metadata()`; the successfully
returned metadata contains a plugin whose id is the empty string, so ids of a
successful return need not be non-empty. -/
theorem metadata_accepts_empty_plugin_id :
    PluginLibrary.metadata 1 2 2 (some [some emptyIdDescriptor]) = Except.ok emptyIdMetadata
    ∧ emptyIdMetadata.plugins.map PluginMetadata.id = [""] := by
  constructor
  · rfl
  · rfl

/-- C3 amended: `PluginLibrary::metadata()` raises a hard error whenever two
factory descriptors carry the same (non-null) plugin id, and in every
successfully returned metadata the plugin ids are unique among the plugins of
that library; ids are non-null but may be empty. -/
theorem metadata_duplicate_error_and_unique_ids (v1 v2 v3 : Nat)
    (ds : List (Option FactoryDescriptor)) (s : String) (m : PluginLibraryMetadata) :
    (PluginLibrary.metadata v1 v2 v3 (some ds) = Except.ok m →
      (m.plugins.map PluginMetadata.id).Nodup)
    ∧ (2 ≤ ds.countP (descHasId s) →
      exceptIsOk (PluginLibrary.metadata v1 v2 v3 (some ds)) = false) := by
  constructor
  · intro h
    rw [PluginLibrary.metadata] at h
    cases hl : PluginLibrary.metadataLoop ds 0 [] [] with
    | error e => rw [hl] at h; simp at h
    | ok plugins =>
      rw [hl] at h
      dsimp only at h
      cases h
      exact metadataLoop_ok_nodup ds 0 [] [] plugins hl (by simp) (by simp)
  · intro h
    rw [PluginLibrary.metadata]
    cases hl : PluginLibrary.metadataLoop ds 0 [] [] with
    | error e => dsimp only; simp [exceptIsOk]
    | ok plugins =>
      exfalso
      have hdup := metadataLoop_dup_isError s ds 0 [] [] (by simpa using h)
      rw [hl] at hdup
      simp [exceptIsOk] at hdup

/-- Witness for the amended C3: the single-plugin factory yields unique ids,
and the duplicate-id factory of scenario S2 makes `metadata()` throw. -/
theorem metadata_duplicate_error_and_unique_ids_witness :
    (singleIdMetadata.plugins.map PluginMetadata.id).Nodup
    ∧ exceptIsOk (PluginLibrary.metadata 1 2 2 (some dupFactory)) = false :=
  ⟨(metadata_duplicate_error_and_unique_ids 1 2 2 [some (namedDescriptor "a")] "a"
      singleIdMetadata).1 (by rfl),
   (metadata_duplicate_error_and_unique_ids 1 2 2 dupFactory "a"
      singleIdMetadata).2 (by decide)⟩


/-- Settings with a regex filter pattern and no inversion. -/
def filterSettingsPattern : ValidatorSettings :=
  { paths := [], pluginId := none, testFilter := some "param", invertFilter := false,
    json := false, onlyFailed := false, inProcess := true }

/-- Settings with no filter pattern but with inversion enabled. -/
def filterSettingsNone : ValidatorSettings :=
  { paths := [], pluginId := none, testFilter := none, invertFilter := true,
    json := false, onlyFailed := false, inProcess := true }

/-- C5: with no filter pattern every test name matches (even with the invert
flag set); when the pattern compiles as a regex the name matches iff the
case-insensitive regex search finds it, negated by the invert flag; when the
pattern does not compile the name matches iff the pattern is a case-sensitive
substring of the name, negated by the invert flag. -/
theorem matchesFilter_spec (regexCompiles : String → Bool)
    (regexSearchIcase : String → String → Bool) (testName pat : String)
    (settings : ValidatorSettings) :
    (settings.testFilter = none →
      commands.matchesFilter regexCompiles regexSearchIcase testName settings = true)
    ∧ (settings.testFilter = some pat → regexCompiles pat = true →
      commands.matchesFilter regexCompiles regexSearchIcase testName settings =
        (if settings.invertFilter then !(regexSearchIcase pat testName)
         else regexSearchIcase pat testName))
    ∧ (settings.testFilter = some pat → regexCompiles pat = false →
      commands.matchesFilter regexCompiles regexSearchIcase testName settings =
        (if settings.invertFilter then !(containsSubstr testName pat)
         else containsSubstr testName pat)) := by
  refine ⟨?_, ?_, ?_⟩
  · intro h
    simp [commands.matchesFilter, h]
  · intro h hc
    simp [commands.matchesFilter, h, hc]
  · intro h hc
    simp [commands.matchesFilter, h, hc]

/-- Witness for C5 at a concrete pattern, name and oracles. -/
theorem matchesFilter_spec_witness :
    commands.matchesFilter (fun _ => true) (fun _ _ => true) "param-conversions"
      filterSettingsPattern =
      (if filterSettingsPattern.invertFilter then !true else true)
    ∧ commands.matchesFilter (fun _ => false) (fun _ _ => true) "param-conversions"
      filterSettingsPattern =
      (if filterSettingsPattern.invertFilter
       then !(containsSubstr "param-conversions" "param")
       else containsSubstr "param-conversions" "param")
    ∧ commands.matchesFilter (fun _ => true) (fun _ _ => false) "x"
      filterSettingsNone = true :=
  ⟨(matchesFilter_spec (fun _ => true) (fun _ _ => true) "param-conversions" "param"
      filterSettingsPattern).2.1 rfl rfl,
   (matchesFilter_spec (fun _ => false) (fun _ _ => true) "param-conversions" "param"
      filterSettingsPattern).2.2 rfl rfl,
   (matchesFilter_spec (fun _ => true) (fun _ _ => false) "x" "param"
      filterSettingsNone).1 rfl⟩

/-- Folding statuses into the tally adds exactly the number of Failed or
Crashed statuses to the failure counter. -/
theorem foldl_tallyAdd_failed (l : List TestStatusCode) :
    ∀ t : Tally, (l.foldl Tally.add t).failed = t.failed + l.countP statusIsFailure := by
  induction l with
  | nil => intro t; simp
  | cons a rest ih =>
    intro t
    rw [List.foldl_cons, List.countP_cons, ih]
    cases a <;> simp [Tally.add, statusIsFailure] <;> omega

/-- Folding the per-plugin status lists into the tally adds the total number
of Failed or Crashed statuses. -/
theorem foldl_foldl_tallyAdd_failed (ls : List (List TestStatusCode)) :
    ∀ t : Tally,
      (ls.foldl (fun acc res => res.foldl Tally.add acc) t).failed =
        t.failed + (ls.map (fun res => res.countP statusIsFailure)).sum := by
  induction ls with
  | nil => intro t; simp
  | cons l rest ih =>
    intro t
    rw [List.foldl_cons, List.map_cons, List.sum_cons, ih, foldl_tallyAdd_failed]
    omega

/-- One path adds exactly `pathFailures` to the failure counter. -/
theorem runPath_failed (t : Tally) (pr : PathRun) :
    (runPath t pr).failed = t.failed + pathFailures pr := by
  cases hl : pr.loadOutcome with
  | none =>
    simp only [runPath, pathFailures, hl]
    rw [foldl_tallyAdd_failed]
    omega
  | some lib =>
    cases lib with
    | mk compatible pluginResults =>
      cases compatible
      · simp only [runPath, pathFailures, hl, Bool.false_eq_true, if_false]
        rw [foldl_tallyAdd_failed]
        omega
      · simp only [runPath, pathFailures, hl, if_true]
        rw [foldl_foldl_tallyAdd_failed, foldl_tallyAdd_failed]
        omega

/-- The failure counter after all paths is the sum of the per-path failure
contributions. -/
theorem foldl_runPath_failed (runs : List PathRun) :
    ∀ t : Tally, (runs.foldl runPath t).failed = t.failed + (runs.map pathFailures).sum := by
  induction runs with
  | nil => intro t; simp
  | cons r rest ih =>
    intro t
    rw [List.foldl_cons, List.map_cons, List.sum_cons, ih, runPath_failed]
    omega

/-- C6 counterexample: for a library whose factory reports two descriptors
with the same id `a`, `list plugins` merely prints one load warning and
returns exit code 0, not 1; and `validate` on an empty path list returns 1
even though no test reported Failed or Crashed and no library failed to
load. -/
theorem exit_codes_counterexample :
    (commands.listPlugins [PluginLibrary.metadata 1 2 2 (some dupFactory)] false).2 = 0
    ∧ (commands.listPlugins [PluginLibrary.metadata 1 2 2 (some dupFactory)]
        false).1.length = 1
    ∧ commands.validate [] = 1 := by
  refine ⟨rfl, ?_, rfl⟩
  rfl

/-- C6 amended: for a non-empty path list, `validate` returns 0 iff no
filtered test reported Failed or Crashed and no library failed to load (an
empty path list is an argument error returning 1); a duplicate-id library
makes `validate` of that path fail with exit code 1, while `list plugins`
records a warning but still exits 0. -/
theorem validate_exit_code_amended (runs : List PathRun) (hne : runs ≠ []) :
    (commands.validate runs = 0 ↔ (runs.map pathFailures).sum = 0)
    ∧ commands.validate [pathRunForFactory [] 1 2 2 (some dupFactory) true []] = 1
    ∧ (commands.listPlugins [PluginLibrary.metadata 1 2 2 (some dupFactory)] false).2
      = 0 := by
  refine ⟨?_, by rfl, rfl⟩
  cases runs with
  | nil => exact absurd rfl hne
  | cons r rs =>
    rw [commands.validate, foldl_runPath_failed]
    simp only [tallyZero]
    split <;> omega

/-- Witness for the amended C6: a fully passing run exits 0 and the
duplicate-id run exits 1. -/
theorem validate_exit_code_amended_witness :
    commands.validate [pathRunSuccess] = 0
    ∧ commands.validate [pathRunForFactory [] 1 2 2 (some dupFactory) true []] = 1 :=
  ⟨(validate_exit_code_amended [pathRunSuccess] (by simp)).1.mpr (by rfl),
   (validate_exit_code_amended [pathRunSuccess] (by simp)).2.1⟩

/-- C7 (code bug): contrary to its registered description, the
state-reproducibility test neither randomizes parameters nor verifies that
the second instance reproduces the first instance's parameter values: for a
plugin whose `load` leaves its parameter 0 at value 7 while the first
instance holds value 5, but whose `save` always emits the same bytes, the
test still returns Success. -/
theorem state_reproducibility_skips_value_check :
    (PluginTests.testStateReproducibilityBasic stateReproDivergentPlugin).status =
      TestStatusCode.Success
    ∧ stateReproDivergentPlugin.load [9] stateReproDivergentPlugin.freshParams =
      some [(0, 7)]
    ∧ stateReproDivergentPlugin.freshParams = [(0, 5)]
    ∧ (7 : Int) ≠ 5 := by
  refine ⟨rfl, rfl, rfl, by decide⟩

/-- Every event the wrong-namespace test builds carries the wrong namespace
id and the `PARAM_VALUE` type, one event per collected parameter info. -/
theorem wrongNsEvents_spec (infos : List ParamInfoModel) (rv : Nat → Int) :
    ∀ i : Nat,
      (wrongNsEvents infos rv i).length = infos.length
      ∧ ∀ ev ∈ wrongNsEvents infos rv i,
          ev.space_id = INCORRECT_NAMESPACE_ID ∧ ev.type = CLAP_EVENT_PARAM_VALUE := by
  induction infos with
  | nil =>
    intro i
    refine ⟨rfl, ?_⟩
    intro ev hev
    simp [wrongNsEvents] at hev
  | cons info rest ih =>
    intro i
    refine ⟨?_, ?_⟩
    · simp [wrongNsEvents, (ih (i + 1)).1]
    · intro ev hev
      simp only [wrongNsEvents] at hev
      rcases List.mem_cons.mp hev with h | h
      · subst h
        exact ⟨rfl, rfl⟩
      · exact (ih (i + 1)).2 ev h

set_option maxRecDepth 16384 in
/-- C8: whenever the wrong-namespace test reaches its final comparison (init,
params extension, a non-empty parameter list, value capture, activation,
start of processing and the processed block all succeed), every event it sent
has `space_id = 0xb33f` and type `PARAM_VALUE`, one per parameter; the test
returns Success iff every parameter value read afterwards equals the value
captured before; and any change yields a Failed result whose detail quotes
the wrong namespace id (printed in decimal, 45887 = 0xb33f, after a literal
`0x` prefix). -/
theorem param_set_wrong_namespace_spec (m : WrongNsModel)
    (infos : List ParamInfoModel) (before after : List (Nat × Int))
    (hinit : m.initOk = true) (hext : m.hasParamsExt = true)
    (hcount : m.paramInfos ≠ [])
    (hbefore : beforeLoop m.getValueBefore m.paramInfos [] [] =
      BeforeLoopResult.ok infos before)
    (hact : m.activateOk = true) (hstart : m.startProcessingOk = true)
    (hproc : m.processStatus ≠ CLAP_PROCESS_ERROR)
    (hafter : afterLoop m.getValueAfter infos [] = some after) :
    (∀ ev ∈ (PluginTests.testParamSetWrongNamespace m).2,
      ev.space_id = INCORRECT_NAMESPACE_ID ∧ ev.type = CLAP_EVENT_PARAM_VALUE)
    ∧ (PluginTests.testParamSetWrongNamespace m).2.length = infos.length
    ∧ ((PluginTests.testParamSetWrongNamespace m).1.status = TestStatusCode.Success ↔
      after = before)
    ∧ (after ≠ before →
      (PluginTests.testParamSetWrongNamespace m).1.details = some wrongNsDetail)
    ∧ INCORRECT_NAMESPACE_ID = 45887
    ∧ containsSubstr wrongNsDetail (toString INCORRECT_NAMESPACE_ID) = true := by
  have h0 : ¬ (m.paramInfos.length = 0) := fun h => hcount (List.length_eq_zero.mp h)
  have hred : PluginTests.testParamSetWrongNamespace m =
      (if after = before then
        (TestResult.success "param-set-wrong-namespace"
          "Tests that plugin ignores param events with wrong namespace." none,
          wrongNsEvents infos m.randomValues 0)
      else
        (TestResult.failed "param-set-wrong-namespace"
          "Tests that plugin ignores param events with wrong namespace."
          (some wrongNsDetail), wrongNsEvents infos m.randomValues 0)) := by
    unfold PluginTests.testParamSetWrongNamespace
    simp [hinit, hext, hact, hstart, h0, hbefore, hafter, hproc]
  refine ⟨?_, ?_, ?_, ?_, rfl, ?_⟩
  · intro ev hev
    rw [hred] at hev
    by_cases hab : after = before
    · rw [if_pos hab] at hev
      exact (wrongNsEvents_spec infos m.randomValues 0).2 ev hev
    · rw [if_neg hab] at hev
      exact (wrongNsEvents_spec infos m.randomValues 0).2 ev hev
  · rw [hred]
    by_cases hab : after = before
    · rw [if_pos hab]
      exact (wrongNsEvents_spec infos m.randomValues 0).1
    · rw [if_neg hab]
      exact (wrongNsEvents_spec infos m.randomValues 0).1
  · rw [hred]
    by_cases hab : after = before
    · rw [if_pos hab]
      simp [TestResult.success, hab]
    · rw [if_neg hab]
      simp [TestResult.failed, hab]
  · intro hab
    rw [hred, if_neg hab]
    simp [TestResult.failed]
  · decide

/-- The single parameter info of the C8 witness plugin. -/
def wrongNsInfo : ParamInfoModel := { id := 42, cookie := 0, minValue := 0, maxValue := 10 }

/-- Witness for C8 at a concrete plugin that leaves its one parameter
unchanged. -/
theorem param_set_wrong_namespace_spec_witness :
    (PluginTests.testParamSetWrongNamespace wrongNsIgnoringPlugin).2.length = 1
    ∧ ((PluginTests.testParamSetWrongNamespace wrongNsIgnoringPlugin).1.status =
      TestStatusCode.Success ↔ ([((42 : Nat), (3 : Int))] = [((42 : Nat), (3 : Int))])) :=
  ⟨(param_set_wrong_namespace_spec wrongNsIgnoringPlugin [wrongNsInfo]
      [(42, 3)] [(42, 3)] rfl rfl (by decide) rfl rfl rfl (by decide) rfl).2.1,
   (param_set_wrong_namespace_spec wrongNsIgnoringPlugin [wrongNsInfo]
      [(42, 3)] [(42, 3)] rfl rfl (by decide) rfl rfl rfl (by decide) rfl).2.2.1⟩

/-- C9 (code bug): contrary to its registered description, the
param-conversions test performs no value/text round-trips and does not fail
when the text-conversion capability is advertised for some but not all
parameters: on a plugin advertising the capability for exactly one of its two
parameters it returns Success. -/
theorem param_conversions_partial_capability_success :
    (PluginTests.testParamConversions paramConvPartialModel).status =
      TestStatusCode.Success
    ∧ paramConvPartialModel.paramInfos.map
        (Option.map ConvParamInfo.supportsTextConversion) = [some true, some false] := by
  refine ⟨rfl, rfl⟩

end ClapValidator
